import Mathlib

/-!
Verification development for the steam-library exporter (src/steam-library.py).

The program is embedded shallowly: the HTTP layer is modelled by an oracle
list of network responses consumed one GET at a time, the in-memory response
cache is an association list keyed by URL, and the JSON bodies handed to each
extractor are modelled as structured records (one record type per endpoint,
with Option fields standing for possibly-absent JSON keys).  Python
exceptions are modelled by an explicit error type; a function that can raise
returns an Except value.
-/

set_option autoImplicit false

/-! ## Constants (steam-library.py lines 17-19) -/

def MIN_WAIT_SECONDS : Nat := 1
def MAX_WAIT_SECONDS : Nat := 60
def MAX_ATTEMPTS : Nat := 10

/-! ## The Fetcher: request (steam-library.py lines 21-47)

The network is an oracle list: the k-th element is what the k-th
requests.get call for this URL would produce.  An empty oracle behaves like
a non-429 network failure.  The body type is a parameter because each
endpoint returns a differently shaped JSON document; the Python cache is one
heterogeneous dict keyed by URL, and since distinct endpoints use distinct
URLs, a per-endpoint typed cache is an equivalent model.

request returns: the outcome, the updated cache, the list of sleeps
performed (one entry per retry, the argument of time.sleep), and the number
of network GETs issued. -/

inductive NetResp (β : Type) where
  /-- a 2xx response carrying a parsed JSON body -/
  | ok (body : β)
  /-- an HTTP 429 rate-limit response -/
  | err429
  /-- any other failure: network error or non-429 HTTP error -/
  | errOther
deriving DecidableEq

inductive ReqResult (β : Type) where
  /-- the function returned a response object -/
  | resp (body : β)
  /-- retries exhausted: the bare `return`, i.e. Python None -/
  | exhausted
  /-- a requests.RequestException was re-raised to the caller -/
  | raised
deriving DecidableEq

def request {β : Type} (net : List (NetResp β)) (cache : List (String × β))
    (url : String) (ignore_error : Bool) (wait_seconds : Nat) (attempts : Nat) :
    ReqResult β × List (String × β) × List Nat × Nat :=
  match cache.lookup url, net with
  | some body, _ =>
    -- cache hit: returned before the sleep, the GET, and any retry
    (.resp body, cache, [], 0)
  | none, [] => (.raised, cache, if wait_seconds > 0 then [wait_seconds] else [], 1)
  | none, .ok body :: _ =>
    -- 2xx: raise_for_status passes, the response is cached and returned
    (.resp body, (url, body) :: cache, if wait_seconds > 0 then [wait_seconds] else [], 1)
  | none, .errOther :: _ =>
    -- non-429 RequestException: printed unless ignore_error, then re-raised
    (.raised, cache, if wait_seconds > 0 then [wait_seconds] else [], 1)
  | none, .err429 :: rest =>
    if attempts + 1 > MAX_ATTEMPTS then
      (.exhausted, cache, if wait_seconds > 0 then [wait_seconds] else [], 1)
    else
      let r := request rest cache url ignore_error
        (if wait_seconds > 0 then min (wait_seconds * 2) MAX_WAIT_SECONDS
         else MIN_WAIT_SECONDS)
        (attempts + 1)
      (r.1, r.2.1, (if wait_seconds > 0 then [wait_seconds] else []) ++ r.2.2.1,
        r.2.2.2 + 1)

/-! ## Python exceptions, as observed by callers -/

inductive PyErr where
  /-- requests.RequestException (the class the extractors catch) -/
  | requestException
  /-- AttributeError, from calling .json() on None -/
  | attributeError
  /-- KeyError, from subscripting a dict with an absent key -/
  | keyError
  /-- ValueError, from datetime rejecting an out-of-range component -/
  | valueError
deriving DecidableEq

/-! ## URL builders (the f-strings of steam-library.py lines 60, 68, 84, 96, 108) -/

def owned_games_url (api_key steam_id : String) : String :=
  "https://api.steampowered.com/IPlayerService/GetOwnedGames/v0001/?key=" ++ api_key ++
    "&steamid=" ++ steam_id ++
    "&include_appinfo=true&include_played_free_games=true&format=json"

def achievements_url (appid : Nat) (api_key steam_id : String) : String :=
  "https://api.steampowered.com/ISteamUserStats/GetPlayerAchievements/v0001/?appid=" ++
    toString appid ++ "&key=" ++ api_key ++ "&steamid=" ++ steam_id

def review_url (appid : Nat) : String :=
  "https://store.steampowered.com/appreviews/" ++ toString appid ++ "?json=1&num_per_page=1"

/-- URL built by get_metacritic_score (line 96). -/
def metacritic_url (appid : Nat) : String :=
  "https://store.steampowered.com/api/appdetails?appids=" ++ toString appid

/-- URL built by get_release_date (line 108). -/
def release_date_url (appid : Nat) : String :=
  "https://store.steampowered.com/api/appdetails?appids=" ++ toString appid

/-! ## JSON body models

Option fields model possibly-absent JSON keys: none means the key is not in
the dict (so subscripting raises KeyError and membership tests are false). -/

/-- Body of GetPlayerAchievements.  achieved is the 0/1 integer per entry. -/
structure Achievement where
  achieved : Nat
deriving DecidableEq

structure PlayerStats where
  achievements : Option (List Achievement)
deriving DecidableEq

structure PlayerAchResp where
  playerstats : Option PlayerStats
deriving DecidableEq

/-- Body of the appreviews endpoint. -/
structure QuerySummary where
  review_score_desc : Option String
deriving DecidableEq

structure ReviewResp where
  query_summary : Option QuerySummary
deriving DecidableEq

/-- Body of the appdetails endpoint: the per-appid object. -/
structure MetacriticObj where
  score : Option Nat
deriving DecidableEq

structure ReleaseDateObj where
  date : Option String
deriving DecidableEq

structure AppData where
  metacritic : Option MetacriticObj
  release_date : Option ReleaseDateObj
deriving DecidableEq

structure AppDetailsEntry where
  data : Option AppData
deriving DecidableEq

/-- The appdetails top-level JSON object, keyed by the appid as a string. -/
structure AppDetailsResp where
  entries : List (String × AppDetailsEntry)
deriving DecidableEq

/-- Body of GetOwnedGames.  The games list lives at response.games. -/
structure OwnedGame where
  appid : Nat
  name : String
  playtime_forever : Option Nat
  rtime_last_played : Option Nat
deriving DecidableEq

structure OwnedGamesInner where
  games : Option (List OwnedGame)
deriving DecidableEq

structure OwnedGamesResp where
  response : Option OwnedGamesInner
deriving DecidableEq


/-! ## format_date (steam-library.py lines 50-56)

datetime.strptime(date_str, "%d %b, %Y") is modelled by the regex CPython
compiles for that format: day matching 3[01]|[12]digit|0[1-9]|[1-9], one or
more whitespace characters for each space in the format, a case-insensitive
abbreviated month name, a literal comma, and exactly four digits for the
year, with no unconverted data allowed; the resulting components are then
validated as a calendar date (datetime raises ValueError on an impossible
day or a year outside 1..9999).  strftime("%Y-%m-%d") zero-pads month and
day to two digits; years below 1000 are platform-dependent in CPython, so
all theorems below stay at years not below 1000, where every platform prints
four digits. -/

def dval (c : Char) : Nat := c.toNat - 48

def isDigitChar (c : Char) : Bool := 48 ≤ c.toNat && c.toNat ≤ 57

/-- the characters matched by regex whitespace over ASCII -/
def isSpaceChar (c : Char) : Bool :=
  c == ' ' || c == '\t' || c == '\n' || c == '\r' || c.toNat == 11 || c.toNat == 12

/-- the lowercase month abbreviations of the C locale, in order -/
def MONTHS : List String :=
  ["jan", "feb", "mar", "apr", "may", "jun", "jul", "aug", "sep", "oct", "nov", "dec"]

/-- the day field: regex 3[01]|[12]d|0[1-9]|[1-9] -/
def parseDay : List Char → Option (Nat × List Char)
  | c1 :: c2 :: rest =>
    if c1 == '3' && (c2 == '0' || c2 == '1') then some (30 + dval c2, rest)
    else if (c1 == '1' || c1 == '2') && isDigitChar c2 then
      some (10 * dval c1 + dval c2, rest)
    else if c1 == '0' && isDigitChar c2 && c2 != '0' then some (dval c2, rest)
    else if isDigitChar c1 && c1 != '0' then some (dval c1, c2 :: rest)
    else none
  | [c1] => if isDigitChar c1 && c1 != '0' then some (dval c1, []) else none
  | [] => none

/-- one-or-more whitespace (a space in the strptime format) -/
def wsPlus : List Char → Option (List Char)
  | c :: rest => if isSpaceChar c then some (rest.dropWhile isSpaceChar) else none
  | [] => none

/-- the month field: a case-insensitive three-letter abbreviation -/
def parseMonth : List Char → Option (Nat × List Char)
  | a :: b :: c :: rest =>
    match MONTHS.indexOf? (String.mk [a.toLower, b.toLower, c.toLower]) with
    | some i => some (i + 1, rest)
    | none => none
  | _ => none

/-- the year field: exactly four digits -/
def parseYear4 : List Char → Option (Nat × List Char)
  | a :: b :: c :: d :: rest =>
    if isDigitChar a && isDigitChar b && isDigitChar c && isDigitChar d then
      some (((dval a * 10 + dval b) * 10 + dval c) * 10 + dval d, rest)
    else none
  | _ => none

/-- the literal comma of the format -/
def parseComma : List Char → Option (List Char)
  | c :: rest => if c == ',' then some rest else none
  | [] => none

/-- the whole "%d %b, %Y" match, returning (day, month, year) -/
def strptimeDbY (s : String) : Option (Nat × Nat × Nat) :=
  (parseDay s.toList).bind fun dp =>
  (wsPlus dp.2).bind fun r2 =>
  (parseMonth r2).bind fun mp =>
  (parseComma mp.2).bind fun r4 =>
  (wsPlus r4).bind fun r5 =>
  (parseYear4 r5).bind fun yp =>
  if yp.2.isEmpty then some (dp.1, mp.1, yp.1) else none

def isLeapYear (y : Nat) : Bool := y % 4 == 0 && (y % 100 != 0 || y % 400 == 0)

def daysInMonth (y m : Nat) : Nat :=
  if m == 2 then (if isLeapYear y then 29 else 28)
  else if m == 4 || m == 6 || m == 9 || m == 11 then 30
  else 31

def pad2 (n : Nat) : String := if n < 10 then "0" ++ toString n else toString n

def pad4 (n : Nat) : String :=
  if n < 10 then "000" ++ toString n
  else if n < 100 then "00" ++ toString n
  else if n < 1000 then "0" ++ toString n
  else toString n

/-- strftime("%Y-%m-%d") -/
def isoString (y m d : Nat) : String := pad4 y ++ "-" ++ pad2 m ++ "-" ++ pad2 d

def format_date (date_str : String) : String :=
  match strptimeDbY date_str with
  | some (d, m, y) =>
    if 1 ≤ y ∧ d ≤ daysInMonth y m then isoString y m d
    else "Unknown Release Date"
  | none => "Unknown Release Date"


/-! ## datetime.utcfromtimestamp(ts).strftime("%Y-%m-%d") (line 142)

Conversion from days since 1970-01-01 to a proleptic Gregorian civil date,
by the standard era-based algorithm; datetime then rejects years above 9999
with ValueError (its constructor bound), which the main loop does not catch. -/

def civilFromDays (z0 : Nat) : Nat × Nat × Nat :=
  let z := z0 + 719468
  let era := z / 146097
  let doe := z % 146097
  let yoe := (doe - doe / 1460 + doe / 36524 - doe / 146096) / 365
  let y0 := yoe + era * 400
  let doy := doe - (365 * yoe + yoe / 4 - yoe / 100)
  let mp := (5 * doy + 2) / 153
  let d := doy - (153 * mp + 2) / 5 + 1
  let m := if mp < 10 then mp + 3 else mp - 9
  (if m ≤ 2 then y0 + 1 else y0, m, d)

/-- datetime.utcfromtimestamp restricted to the date triple it prints -/
def utcDateOfTimestamp (ts : Nat) : Except PyErr (Nat × Nat × Nat) :=
  let ymd := civilFromDays (ts / 86400)
  if ymd.1 ≤ 9999 then .ok ymd else .error .valueError


/-! ## Extractors (steam-library.py lines 59-116)

Each extractor calls request with ignore_error=true, catches only
requests.RequestException around that call, and then parses the body
outside the try block.  In particular, when request has returned None
after exhausting its retries, the .json() call raises AttributeError,
which the handler does not cover.  Each extractor returns the updated
cache and the number of network GETs it caused, next to its result. -/

/-- parse step of get_owned_games (lines 62-63): data.response.games -/
def ownedGamesOfResp (d : OwnedGamesResp) : Except PyErr (List OwnedGame) :=
  match d.response with
  | none => .error .keyError
  | some inner =>
    match inner.games with
    | none => .error .keyError
    | some gs => .ok gs

/-- get_owned_games (lines 59-63); its request uses ignore_error=false and
is not wrapped in a try, so every failure propagates to main. -/
def get_owned_games (steam_id api_key : String) (net : List (NetResp OwnedGamesResp))
    (cache : List (String × OwnedGamesResp)) :
    Except PyErr (List OwnedGame) × List (String × OwnedGamesResp) × Nat :=
  let r := request net cache (owned_games_url api_key steam_id) false 0 0
  (match r.1 with
   | .raised => .error .requestException
   | .exhausted => .error .attributeError
   | .resp d => ownedGamesOfResp d,
   r.2.1, r.2.2.2)

/-- number of unlocked achievements: sum(ach["achieved"] for ach in achievements) -/
def sumAchieved (achs : List Achievement) : Nat := (achs.map Achievement.achieved).sum

/-- parse step of is_game_beaten (lines 73-80).  The comparison
unlocked >= total/2 uses Python real division; over the integers at hand it
is equivalent to total <= 2 * unlocked. -/
def beatenOfResp (d : PlayerAchResp) : Bool :=
  match d.playerstats with
  | none => false
  | some ps =>
    match ps.achievements with
    | none => false
    | some achs => decide (achs.length ≤ 2 * sumAchieved achs)

/-- is_game_beaten (lines 66-80) -/
def is_game_beaten (appid : Nat) (steam_id api_key : String)
    (net : List (NetResp PlayerAchResp)) (cache : List (String × PlayerAchResp)) :
    Except PyErr Bool × List (String × PlayerAchResp) × Nat :=
  let r := request net cache (achievements_url appid api_key steam_id) true 0 0
  (match r.1 with
   | .raised => .ok false
   | .exhausted => .error .attributeError
   | .resp d => .ok (beatenOfResp d),
   r.2.1, r.2.2.2)

/-- parse step of get_review_summary (lines 89-92) -/
def reviewOfResp (d : ReviewResp) : Except PyErr String :=
  match d.query_summary with
  | none => .ok "No Reviews"
  | some qs =>
    match qs.review_score_desc with
    | none => .error .keyError
    | some s => .ok s

/-- get_review_summary (lines 83-92) -/
def get_review_summary (appid : Nat) (net : List (NetResp ReviewResp))
    (cache : List (String × ReviewResp)) :
    Except PyErr String × List (String × ReviewResp) × Nat :=
  let r := request net cache (review_url appid) true 0 0
  (match r.1 with
   | .raised => .ok "Error Fetching Reviews"
   | .exhausted => .error .attributeError
   | .resp d => reviewOfResp d,
   r.2.1, r.2.2.2)

/-- A Metacritic cell is either the integer score or a sentinel string. -/
inductive MetaVal where
  | score (n : Nat)
  | str (s : String)
deriving DecidableEq

/-- parse step of get_metacritic_score (lines 101-104).  The condition
str(appid) in data and "metacritic" in data[str(appid)]["data"]
short-circuits on an absent appid key, but subscripting with "data" raises
KeyError when that key is absent, as does the final ["score"]. -/
def metacriticOfResp (appid : Nat) (d : AppDetailsResp) : Except PyErr MetaVal :=
  match d.entries.lookup (toString appid) with
  | none => .ok (.str "No Score")
  | some entry =>
    match entry.data with
    | none => .error .keyError
    | some ad =>
      match ad.metacritic with
      | none => .ok (.str "No Score")
      | some mc =>
        match mc.score with
        | none => .error .keyError
        | some n => .ok (.score n)

/-- get_metacritic_score (lines 95-104) -/
def get_metacritic_score (appid : Nat) (net : List (NetResp AppDetailsResp))
    (cache : List (String × AppDetailsResp)) :
    Except PyErr MetaVal × List (String × AppDetailsResp) × Nat :=
  let r := request net cache (metacritic_url appid) true 0 0
  (match r.1 with
   | .raised => .ok (.str "Error Fetching Metacritic Score")
   | .exhausted => .error .attributeError
   | .resp d => metacriticOfResp appid d,
   r.2.1, r.2.2.2)

/-- parse step of get_release_date (lines 113-116) -/
def releaseDateOfResp (appid : Nat) (d : AppDetailsResp) : Except PyErr String :=
  match d.entries.lookup (toString appid) with
  | none => .ok "Unknown Release Date"
  | some entry =>
    match entry.data with
    | none => .error .keyError
    | some ad =>
      match ad.release_date with
      | none => .ok "Unknown Release Date"
      | some rd =>
        match rd.date with
        | none => .error .keyError
        | some ds => .ok (format_date ds)

/-- get_release_date (lines 107-116) -/
def get_release_date (appid : Nat) (net : List (NetResp AppDetailsResp))
    (cache : List (String × AppDetailsResp)) :
    Except PyErr String × List (String × AppDetailsResp) × Nat :=
  let r := request net cache (release_date_url appid) true 0 0
  (match r.1 with
   | .raised => .ok "Error Fetching Release Date"
   | .exhausted => .error .attributeError
   | .resp d => releaseDateOfResp appid d,
   r.2.1, r.2.2.2)

/-! ## The report builder: main (steam-library.py lines 118-161)

The per-game enrichment (the four extractor calls inside the try of lines
144-148) is abstracted by an oracle: some e means the four calls returned
the values in e, none means one of them raised, which the
except-Exception handler catches, logging the appid and skipping the game.
The name, playtime and last-played computations of lines 138-143 happen
before the try, so an exception there is not caught and aborts the loop. -/

structure Enrichment where
  review : String
  metacritic : MetaVal
  release : String
  beaten : Bool
deriving DecidableEq

structure Row where
  name : String
  review : String
  metacritic : MetaVal
  playtime : Nat
  release : String
  lastPlayed : String
  beaten : Bool
deriving DecidableEq

/-- lines 141-143: the conditional expression computing last_played_date -/
def lastPlayedOf (g : OwnedGame) : Except PyErr String :=
  let ts := g.rtime_last_played.getD 0
  if ts = 0 then .ok "Never Played"
  else
    match utcDateOfTimestamp ts with
    | .ok (y, m, d) => .ok (isoString y m d)
    | .error e => .error e

def mkRow (g : OwnedGame) (e : Enrichment) (lastPlayed : String) : Row :=
  { name := g.name, review := e.review, metacritic := e.metacritic,
    playtime := g.playtime_forever.getD 0, release := e.release,
    lastPlayed := lastPlayed, beaten := e.beaten }

/-- The loop of lines 137-161.  Returns the rows written, the appids whose
games were logged and skipped, and the uncaught exception that aborted the
loop, if any (rows before the abort are already in the file). -/
def mainLoop (enrich : OwnedGame → Option Enrichment) :
    List OwnedGame → List Row × List Nat × Option PyErr
  | [] => ([], [], none)
  | g :: rest =>
    match lastPlayedOf g with
    | .error e => ([], [], some e)
    | .ok lp =>
      match enrich g with
      | some e =>
        let r := mainLoop enrich rest
        (mkRow g e lp :: r.1, r.2.1, r.2.2)
      | none =>
        let r := mainLoop enrich rest
        (r.1, g.appid :: r.2.1, r.2.2)

inductive MainResult where
  /-- an early return after a printed message; no file was created -/
  | cleanExit
  /-- an exception propagated out of main before the file was opened -/
  | uncaughtNoFile (e : PyErr)
  /-- the file was created with a header and these rows; aborted carries an
  exception that escaped the loop after the rows were written -/
  | fileWritten (rows : List Row) (loggedAppids : List Nat) (aborted : Option PyErr)
deriving DecidableEq

/-- The main function (lines 118-161; the name main is reserved in Lean).
steam_id is none when the environment variable is unset; Python falsiness
also treats the empty string as missing. -/
def mainFn (steam_id : Option String) (net : List (NetResp OwnedGamesResp))
    (enrich : OwnedGame → Option Enrichment) : MainResult :=
  match steam_id with
  | none => .cleanExit
  | some sid =>
    if sid = "" then .cleanExit
    else
      let r := get_owned_games sid "" net []
      match r.1 with
      | .error e => .uncaughtNoFile e
      | .ok games =>
        if games.isEmpty then .cleanExit
        else
          let l := mainLoop enrich games
          .fileWritten l.1 l.2.1 l.2.2

/-! ## Claim theorems -/

/-- Claim C1: for every sequence of consecutive HTTP 429 responses for one
URL, the waits before successive retries are exactly 1, 2, 4, 8, 16, 32,
60, 60, 60, 60 seconds (first retry waits MIN_WAIT_SECONDS, each later wait
doubles the previous one capped at MAX_WAIT_SECONDS), and once the attempt
counter has reached MAX_ATTEMPTS = 10 the call gives up (returns None)
instead of retrying again.  The first conjunct is the exhaustion run: 11
GETs are issued and no further oracle entry is consumed; the second covers
every shorter run of n consecutive 429 responses followed by a success,
whose waits are the first n entries of the same sequence. -/
theorem c1_backoff_wait_sequence :
    (∀ (β : Type) (url : String) (ig : Bool) (extra : List (NetResp β)),
      request (List.replicate 11 .err429 ++ extra) [] url ig 0 0 =
        (.exhausted, [], [1, 2, 4, 8, 16, 32, 60, 60, 60, 60], 11)) ∧
    (∀ (β : Type) (url : String) (ig : Bool) (body : β) (extra : List (NetResp β))
      (n : Nat), n ≤ 10 →
      request (List.replicate n .err429 ++ .ok body :: extra) [] url ig 0 0 =
        (.resp body, [(url, body)], List.take n [1, 2, 4, 8, 16, 32, 60, 60, 60, 60], n + 1)) := by
  constructor
  · intro β url ig extra
    rfl
  · intro β url ig body extra n hn
    interval_cases n <;> rfl

/-- Witness for C1 at a concrete input: three 429 responses then a success
wait 1, 2, 4 seconds. -/
theorem c1_backoff_wait_sequence_witness :
    request [NetResp.err429, .err429, .err429, .ok "B"] [] "u" true 0 0 =
      (.resp "B", [("u", "B")], [1, 2, 4], 4) := by
  have h := c1_backoff_wait_sequence.2 String "u" true "B" [] 3 (by decide)
  simpa using h

/-! helper lemmas about request, shared by several claims below -/

/-- A cache hit returns the stored body with no sleep and no network GET. -/
theorem request_hit {β : Type} (net : List (NetResp β)) (cache : List (String × β))
    (url : String) (ig : Bool) (w a : Nat) (b : β) (h : cache.lookup url = some b) :
    request net cache url ig w a = (.resp b, cache, [], 0) := by
  cases net with
  | nil => simp [request, h]
  | cons r rest => cases r <;> simp [request, h]

/-- The cache is either unchanged, or extended by exactly the returned
successful response under the requested URL (which was not cached before):
only successful responses are ever inserted. -/
theorem request_insert {β : Type} (net : List (NetResp β)) :
    ∀ (cache : List (String × β)) (url : String) (ig : Bool) (w a : Nat),
      (request net cache url ig w a).2.1 = cache ∨
      ∃ b, (request net cache url ig w a).1 = .resp b ∧ cache.lookup url = none ∧
        (request net cache url ig w a).2.1 = (url, b) :: cache := by
  induction net with
  | nil =>
    intro cache url ig w a
    cases h : cache.lookup url with
    | some b => left; simp [request, h]
    | none => left; simp [request, h]
  | cons r rest ih =>
    intro cache url ig w a
    cases h : cache.lookup url with
    | some b => left; simp [request, h]
    | none =>
      cases r with
      | ok body =>
        right
        refine ⟨body, ?_, rfl, ?_⟩ <;> simp [request, h]
      | errOther => left; simp [request, h]
      | err429 =>
        by_cases ha : a + 1 > MAX_ATTEMPTS
        · left; simp [request, h, ha]
        · rcases ih cache url ig
              (if w > 0 then min (w * 2) MAX_WAIT_SECONDS else MIN_WAIT_SECONDS) (a + 1)
            with h2 | ⟨b, hb1, hb2, hb3⟩
          · left
            simp only [request, h, ha, if_false]
            simpa using h2
          · right
            refine ⟨b, ?_, rfl, ?_⟩ <;> simp only [request, h, ha, if_false] <;>
              simp [hb1, hb3]

/-- After a call that returned a response, that response is in the cache
under the requested URL. -/
theorem request_success_cached {β : Type} (net : List (NetResp β)) :
    ∀ (cache : List (String × β)) (url : String) (ig : Bool) (w a : Nat) (b : β),
      (request net cache url ig w a).1 = .resp b →
      ((request net cache url ig w a).2.1).lookup url = some b := by
  induction net with
  | nil =>
    intro cache url ig w a b hb
    cases h : cache.lookup url with
    | some c =>
      rw [request_hit _ _ _ _ _ _ _ h] at hb ⊢
      simp at hb
      simp [h, hb]
    | none => simp [request, h] at hb
  | cons r rest ih =>
    intro cache url ig w a b hb
    cases h : cache.lookup url with
    | some c =>
      rw [request_hit _ _ _ _ _ _ _ h] at hb ⊢
      simp at hb
      simp [h, hb]
    | none =>
      cases r with
      | ok body =>
        simp [request, h] at hb ⊢
        simp [List.lookup, hb]
      | errOther => simp [request, h] at hb
      | err429 =>
        by_cases ha : a + 1 > MAX_ATTEMPTS
        · simp [request, h, ha] at hb
        · have h2 := ih cache url ig
            (if w > 0 then min (w * 2) MAX_WAIT_SECONDS else MIN_WAIT_SECONDS) (a + 1) b
          simp only [request, h, ha, if_false] at hb ⊢
          exact h2 (by simpa using hb)

/-- A cached entry survives any later request call, whatever its URL. -/
theorem request_preserves_key {β : Type} (net : List (NetResp β))
    (cache : List (String × β)) (url url2 : String) (ig : Bool) (w a : Nat) (b : β)
    (h : cache.lookup url = some b) :
    ((request net cache url2 ig w a).2.1).lookup url = some b := by
  rcases request_insert net cache url2 ig w a with h2 | ⟨c, hc1, hc2, hc3⟩
  · rw [h2, h]
  · rw [hc3]
    have hne : (url == url2) = false := by
      by_cases he : url = url2
      · subst he
        rw [h] at hc2
        exact absurd hc2 (by simp)
      · exact beq_false_of_ne he
    simp [List.lookup, hne, h]

/-- Claim C2: if a request call for a URL succeeded, the response is cached
under that URL; every later request call with that URL is answered from the
cache (identical body, no sleep, zero network GETs); the cache is only ever
extended by successful responses; and a cached entry survives any later
call, whatever URL that later call fetches. -/
theorem c2_cache_property :
    (∀ (β : Type) (net : List (NetResp β)) (cache : List (String × β)) (url : String)
      (ig : Bool) (w a : Nat) (b : β),
      (request net cache url ig w a).1 = .resp b →
      ∀ (net2 : List (NetResp β)) (ig2 : Bool) (w2 a2 : Nat),
        request net2 (request net cache url ig w a).2.1 url ig2 w2 a2 =
          (.resp b, (request net cache url ig w a).2.1, [], 0)) ∧
    (∀ (β : Type) (net : List (NetResp β)) (cache : List (String × β)) (url : String)
      (ig : Bool) (w a : Nat),
      (request net cache url ig w a).2.1 = cache ∨
      ∃ b, (request net cache url ig w a).1 = .resp b ∧ cache.lookup url = none ∧
        (request net cache url ig w a).2.1 = (url, b) :: cache) ∧
    (∀ (β : Type) (net : List (NetResp β)) (cache : List (String × β)) (url url2 : String)
      (ig : Bool) (w a : Nat) (b : β),
      cache.lookup url = some b →
      ((request net cache url2 ig w a).2.1).lookup url = some b) := by
  refine ⟨?_, ?_, ?_⟩
  · intro β net cache url ig w a b hb net2 ig2 w2 a2
    exact request_hit _ _ _ _ _ _ _ (request_success_cached net cache url ig w a b hb)
  · intro β net cache url ig w a
    exact request_insert net cache url ig w a
  · intro β net cache url url2 ig w a b h
    exact request_preserves_key net cache url url2 ig w a b h

/-- Witness for C2 at a concrete input: after a successful fetch of URL u,
a second call for u returns the same body from the cache with zero GETs,
even though the oracle would answer 429. -/
theorem c2_cache_property_witness :
    request [NetResp.err429, .err429] (request [NetResp.ok "B"] [] "u" false 0 0).2.1
        "u" true 5 3 =
      (.resp "B", (request [NetResp.ok "B"] [] "u" false 0 0).2.1, [], 0) :=
  c2_cache_property.1 String [NetResp.ok "B"] [] "u" false 0 0 "B" (by rfl)
    [NetResp.err429, .err429] true 5 3

/-- Claim C9: when the retries for a URL are exhausted by eleven straight
429 responses, request returns None (exhausted) without raising and caches
nothing; is_game_beaten and get_review_summary then call .json() on that
None, raising AttributeError, which their except clauses for
requests.RequestException do not catch (contrast: a genuine
RequestException is caught and yields the sentinel). -/
theorem c9_exhausted_gives_attribute_error :
    (∀ (β : Type) (url : String) (ig : Bool) (extra : List (NetResp β)),
      request (List.replicate 11 .err429 ++ extra) [] url ig 0 0 =
        (.exhausted, [], [1, 2, 4, 8, 16, 32, 60, 60, 60, 60], 11)) ∧
    (∀ (appid : Nat) (sid key : String),
      is_game_beaten appid sid key (List.replicate 11 .err429) [] =
        (.error .attributeError, [], 11)) ∧
    (∀ appid : Nat, get_review_summary appid (List.replicate 11 .err429) [] =
        (.error .attributeError, [], 11)) ∧
    (∀ appid : Nat, get_review_summary appid [.errOther] [] =
        (.ok "Error Fetching Reviews", [], 1)) ∧
    (∀ (appid : Nat) (sid key : String),
      is_game_beaten appid sid key [.errOther] [] = (.ok false, [], 1)) := by
  refine ⟨?_, ?_, ?_, ?_, ?_⟩ <;> intros <;> rfl

/-- Counterexample to C10: in one run, fetching the Metacritic score of
appid 440 through a single 429 response followed by a success issues two
network GETs to the app-details endpoint, so more than one app-details
request per appid can be issued in a run. -/
theorem c10_counterexample :
    get_metacritic_score 440 [.err429, .ok ⟨[]⟩] [] =
      (.ok (.str "No Score"), [(metacritic_url 440, ⟨[]⟩)], 2) := by rfl

/-- Claim C10 as amended: get_metacritic_score and get_release_date build
the identical app-details URL, so once the request issued by the first of
them has succeeded, get_release_date performs zero network GETs and parses
the same cached body; at most one successful GET per appid reaches the
app-details endpoint in a run, though failed attempts (429 retries or
errors) may add further GETs. -/
theorem c10_same_url_shared_cache :
    (∀ appid : Nat, metacritic_url appid = release_date_url appid) ∧
    (∀ (appid : Nat) (net : List (NetResp AppDetailsResp))
      (cache : List (String × AppDetailsResp)) (d : AppDetailsResp),
      (request net cache (metacritic_url appid) true 0 0).1 = .resp d →
      ∀ net2 : List (NetResp AppDetailsResp),
        get_release_date appid net2 (request net cache (metacritic_url appid) true 0 0).2.1 =
          (releaseDateOfResp appid d,
            (request net cache (metacritic_url appid) true 0 0).2.1, 0)) := by
  constructor
  · intro appid; rfl
  · intro appid net cache d hd net2
    have hc : ((request net cache (metacritic_url appid) true 0 0).2.1).lookup
        (release_date_url appid) = some d :=
      request_success_cached net cache (metacritic_url appid) true 0 0 d hd
    unfold get_release_date
    rw [request_hit _ _ _ _ _ _ _ hc]

/-- Witness for the amended C10 at a concrete input: after the succeeding
metacritic fetch for appid 10, the release-date fetch is answered from the
cache with zero GETs. -/
theorem c10_same_url_shared_cache_witness :
    get_release_date 10 [NetResp.errOther]
        (request [NetResp.ok (⟨[]⟩ : AppDetailsResp)] [] (metacritic_url 10) true 0 0).2.1 =
      (releaseDateOfResp 10 ⟨[]⟩,
        (request [NetResp.ok (⟨[]⟩ : AppDetailsResp)] [] (metacritic_url 10) true 0 0).2.1, 0) :=
  c10_same_url_shared_cache.2 10 [NetResp.ok ⟨[]⟩] [] ⟨[]⟩ (by rfl) [NetResp.errOther]

/-- Counterexample to C4: a response whose achievements list is present but
empty describes a game with no achievements, yet is_game_beaten reports it
as beaten (0 unlocked is at least half of 0 listed). -/
theorem c4_counterexample :
    is_game_beaten 1 "s" "k" [.ok ⟨some ⟨some []⟩⟩] [] =
      (.ok true, [(achievements_url 1 "k" "s", ⟨some ⟨some []⟩⟩)], 1) := by rfl

/-- Claim C4 as amended: whenever achievement data is present,
is_game_beaten returns true exactly when the unlocked count is at least
half of the listed achievements (so 2 of 4 gives true and 1 of 4 gives
false), it returns false when the fetch raises a RequestException or when
the playerstats or achievements keys are absent; but a present-and-empty
achievements list counts as beaten, so a game without achievements can be
reported beaten when the response carries an empty list. -/
theorem c4_beaten_heuristic :
    (∀ (appid : Nat) (sid key : String) (achs : List Achievement),
      is_game_beaten appid sid key [.ok ⟨some ⟨some achs⟩⟩] [] =
        (.ok (decide (achs.length ≤ 2 * sumAchieved achs)),
          [(achievements_url appid key sid, ⟨some ⟨some achs⟩⟩)], 1)) ∧
    ((is_game_beaten 1 "s" "k" [.ok ⟨some ⟨some [⟨1⟩, ⟨1⟩, ⟨0⟩, ⟨0⟩]⟩⟩] []).1 = .ok true) ∧
    ((is_game_beaten 1 "s" "k" [.ok ⟨some ⟨some [⟨1⟩, ⟨0⟩, ⟨0⟩, ⟨0⟩]⟩⟩] []).1 = .ok false) ∧
    (∀ (appid : Nat) (sid key : String),
      (is_game_beaten appid sid key [.errOther] []).1 = .ok false) ∧
    (∀ (appid : Nat) (sid key : String),
      (is_game_beaten appid sid key [.ok ⟨none⟩] []).1 = .ok false) ∧
    (∀ (appid : Nat) (sid key : String),
      (is_game_beaten appid sid key [.ok ⟨some ⟨none⟩⟩] []).1 = .ok false) := by
  refine ⟨?_, ?_, ?_, ?_, ?_, ?_⟩ <;> intros <;> rfl

/-- Every game whose last-played computation succeeds and whose enrichment
does not raise produces exactly one row and no log entry. -/
theorem mainLoop_all_success (enrich : OwnedGame → Option Enrichment) :
    ∀ gs : List OwnedGame,
      (∀ x ∈ gs, (enrich x).isSome) → (∀ x ∈ gs, (lastPlayedOf x).isOk) →
      (mainLoop enrich gs).1.length = gs.length ∧
      (mainLoop enrich gs).2.1 = [] ∧ (mainLoop enrich gs).2.2 = none := by
  intro gs
  induction gs with
  | nil => intro _ _; simp [mainLoop]
  | cons g rest ih =>
    intro he ht
    have htg := ht g (List.mem_cons_self g rest)
    have heg := he g (List.mem_cons_self g rest)
    match hlp : lastPlayedOf g with
    | .error e => rw [hlp] at htg; simp [Except.isOk, Except.toBool] at htg
    | .ok lp =>
      match hen : enrich g with
      | none => rw [hen] at heg; simp at heg
      | some e =>
        have h2 := ih (fun x hx => he x (List.mem_cons_of_mem g hx))
          (fun x hx => ht x (List.mem_cons_of_mem g hx))
        simp [mainLoop, hlp, hen, h2.1, h2.2.1, h2.2.2]

/-- Claim C3: in a batch where exactly one game raises during enrichment
(the four extractor calls of the try block) and every game passes the
pre-try last-played computation, the loop writes one row per other game
(N - 1 rows in total), logs exactly the failing appid, skips that game and
finishes the batch without aborting. -/
theorem c3_single_failure_skipped (enrich : OwnedGame → Option Enrichment)
    (pre post : List OwnedGame) (g : OwnedGame)
    (hpre : ∀ x ∈ pre, (enrich x).isSome)
    (hpost : ∀ x ∈ post, (enrich x).isSome)
    (hg : enrich g = none)
    (hts : ∀ x ∈ pre ++ g :: post, (lastPlayedOf x).isOk) :
    (mainLoop enrich (pre ++ g :: post)).1.length = (pre ++ g :: post).length - 1 ∧
    (mainLoop enrich (pre ++ g :: post)).2.1 = [g.appid] ∧
    (mainLoop enrich (pre ++ g :: post)).2.2 = none := by
  induction pre with
  | nil =>
    have htg := hts g (by simp)
    match hlp : lastPlayedOf g with
    | .error e => rw [hlp] at htg; simp [Except.isOk, Except.toBool] at htg
    | .ok lp =>
      have h2 := mainLoop_all_success enrich post hpost
        (fun x hx => hts x (by simp [hx]))
      simp [mainLoop, hlp, hg, h2.1, h2.2.1, h2.2.2]
  | cons p pre ih =>
    have htp := hts p (by simp)
    have hep := hpre p (by simp)
    match hlp : lastPlayedOf p with
    | .error e => rw [hlp] at htp; simp [Except.isOk, Except.toBool] at htp
    | .ok lp =>
      match hen : enrich p with
      | none => rw [hen] at hep; simp at hep
      | some e =>
        have h2 := ih (fun x hx => hpre x (List.mem_cons_of_mem p hx))
          (fun x hx => hts x (List.mem_cons_of_mem p hx))
        simp only [List.cons_append, mainLoop, hlp, hen] at h2 ⊢
        refine ⟨?_, h2.2.1, h2.2.2⟩
        simp [h2.1]
        omega

/-- Witness for C3 at a concrete input: of three games, the middle one
fails enrichment; two rows come out, its appid 2 is logged, no abort. -/
theorem c3_single_failure_skipped_witness :
    (mainLoop
        (fun g => if g.appid = 2 then none
          else some ⟨"Positive", .score 80, "2020-03-21", true⟩)
        ([⟨1, "a", none, some 0⟩] ++ ⟨2, "b", none, some 0⟩ :: [⟨3, "c", none, some 0⟩])).1.length =
      (([⟨1, "a", none, some 0⟩] ++ ⟨2, "b", none, some 0⟩ :: [⟨3, "c", none, some 0⟩] :
        List OwnedGame)).length - 1 ∧
    (mainLoop
        (fun g => if g.appid = 2 then none
          else some ⟨"Positive", .score 80, "2020-03-21", true⟩)
        ([⟨1, "a", none, some 0⟩] ++ ⟨2, "b", none, some 0⟩ :: [⟨3, "c", none, some 0⟩])).2.1 =
      [(⟨2, "b", none, some 0⟩ : OwnedGame).appid] ∧
    (mainLoop
        (fun g => if g.appid = 2 then none
          else some ⟨"Positive", .score 80, "2020-03-21", true⟩)
        ([⟨1, "a", none, some 0⟩] ++ ⟨2, "b", none, some 0⟩ :: [⟨3, "c", none, some 0⟩])).2.2 =
      none :=
  c3_single_failure_skipped
    (fun g => if g.appid = 2 then none
      else some ⟨"Positive", .score 80, "2020-03-21", true⟩)
    [(⟨1, "a", none, some 0⟩ : OwnedGame)] [(⟨3, "c", none, some 0⟩ : OwnedGame)]
    (⟨2, "b", none, some 0⟩ : OwnedGame) (by decide) (by decide) (by decide) (by decide)

/-- Counterexample to C5: with a Steam ID present, a failing owned-games
fetch makes main propagate the RequestException uncaught, so the program
does surface an error traceback, contradicting the claimed silent exit.
No file is written, but the exit is not traceback-free. -/
theorem c5_counterexample :
    mainFn (some "sid") [NetResp.errOther] (fun _ => none) =
      .uncaughtNoFile .requestException := by rfl

/-- Claim C5 as amended: when the owned-games call fails entirely, no
output file is ever created; the program exits cleanly without a traceback
only when the Steam ID is missing or empty or when the games list parses as
empty, while a raised fetch error or a missing response or games key
propagates as an uncaught exception (a traceback). -/
theorem c5_no_file_on_owned_games_failure :
    (∀ (net : List (NetResp OwnedGamesResp)) (enrich : OwnedGame → Option Enrichment),
      mainFn none net enrich = .cleanExit ∧ mainFn (some "") net enrich = .cleanExit) ∧
    (∀ (sid : String) (net : List (NetResp OwnedGamesResp))
      (enrich : OwnedGame → Option Enrichment) (e : PyErr), sid ≠ "" →
      (get_owned_games sid "" net []).1 = .error e →
      mainFn (some sid) net enrich = .uncaughtNoFile e) ∧
    (∀ (sid : String) (net : List (NetResp OwnedGamesResp))
      (enrich : OwnedGame → Option Enrichment), sid ≠ "" →
      (get_owned_games sid "" net []).1 = .ok [] →
      mainFn (some sid) net enrich = .cleanExit) ∧
    (∀ (sid : String) (net : List (NetResp OwnedGamesResp))
      (enrich : OwnedGame → Option Enrichment) (rows : List Row) (logs : List Nat)
      (ab : Option PyErr),
      ((get_owned_games sid "" net []).1 = .ok [] ∨
        ∃ e, (get_owned_games sid "" net []).1 = .error e) →
      mainFn (some sid) net enrich ≠ .fileWritten rows logs ab) := by
  refine ⟨?_, ?_, ?_, ?_⟩
  · intro net enrich
    exact ⟨rfl, rfl⟩
  · intro sid net enrich e hsid hf
    simp [mainFn, hsid, hf]
  · intro sid net enrich hsid hf
    simp [mainFn, hsid, hf]
  · intro sid net enrich rows logs ab hf
    by_cases hsid : sid = ""
    · subst hsid; simp [mainFn]
    · rcases hf with hf | ⟨e, hf⟩ <;> simp [mainFn, hsid, hf]

/-- Witness for the amended C5 at concrete inputs: a missing response key
gives an uncaught KeyError, and an empty games list gives a clean exit;
neither writes a file. -/
theorem c5_no_file_on_owned_games_failure_witness :
    mainFn (some "sid") [NetResp.ok ⟨none⟩] (fun _ => none) =
      .uncaughtNoFile .keyError ∧
    mainFn (some "sid") [NetResp.ok ⟨some ⟨some []⟩⟩] (fun _ => none) = .cleanExit :=
  ⟨c5_no_file_on_owned_games_failure.2.1 "sid" [NetResp.ok ⟨none⟩] (fun _ => none)
      .keyError (by decide) (by rfl),
    c5_no_file_on_owned_games_failure.2.2.1 "sid" [NetResp.ok ⟨some ⟨some []⟩⟩]
      (fun _ => none) (by decide) (by rfl)⟩

/-- Counterexample to C7: the common appdetails failure body, an entry for
the appid whose object has no data key (success false), makes
get_metacritic_score raise KeyError to its caller rather than return a
sentinel, contradicting that it never propagates an exception. -/
theorem c7_counterexample :
    get_metacritic_score 440 [.ok ⟨[("440", ⟨none⟩)]⟩] [] =
      (.error .keyError, [(metacritic_url 440, ⟨[("440", ⟨none⟩)]⟩)], 1) := by rfl

/-- Claim C7 as amended: get_metacritic_score returns the nested score when
the whole path is present, the sentinel No Score when the appid key is
absent or when metacritic is absent under a present data object, and the
error sentinel when the request raises a RequestException; but it does
propagate exceptions in two cases: KeyError when the data key (or the score
key under metacritic) is absent, and AttributeError when the request
returned None after exhausting its retries. -/
theorem c7_metacritic_score :
    (∀ (appid s : Nat) (rd : Option ReleaseDateObj),
      (get_metacritic_score appid
          [.ok ⟨[(toString appid, ⟨some ⟨some ⟨some s⟩, rd⟩⟩)]⟩] []).1 =
        .ok (.score s)) ∧
    (∀ appid : Nat,
      (get_metacritic_score appid [.ok ⟨[]⟩] []).1 = .ok (.str "No Score")) ∧
    (∀ (appid : Nat) (rd : Option ReleaseDateObj),
      (get_metacritic_score appid [.ok ⟨[(toString appid, ⟨some ⟨none, rd⟩⟩)]⟩] []).1 =
        .ok (.str "No Score")) ∧
    (∀ appid : Nat,
      (get_metacritic_score appid [.errOther] []).1 =
        .ok (.str "Error Fetching Metacritic Score")) ∧
    (∀ appid : Nat,
      (get_metacritic_score appid [.ok ⟨[(toString appid, ⟨none⟩)]⟩] []).1 =
        .error .keyError) ∧
    (∀ (appid : Nat) (rd : Option ReleaseDateObj),
      (get_metacritic_score appid
          [.ok ⟨[(toString appid, ⟨some ⟨some ⟨none⟩, rd⟩⟩)]⟩] []).1 = .error .keyError) ∧
    (∀ appid : Nat,
      (get_metacritic_score appid (List.replicate 11 .err429) []).1 =
        .error .attributeError) := by
  refine ⟨?_, ?_, ?_, ?_, ?_, ?_, ?_⟩
  · intro appid s rd
    simp [get_metacritic_score, request, metacriticOfResp, List.lookup]
  · intro appid
    rfl
  · intro appid rd
    simp [get_metacritic_score, request, metacriticOfResp, List.lookup]
  · intro appid
    rfl
  · intro appid
    simp [get_metacritic_score, request, metacriticOfResp, List.lookup]
  · intro appid rd
    simp [get_metacritic_score, request, metacriticOfResp, List.lookup]
  · intro appid
    rfl

/-- Counterexample to C8: the nonzero epoch timestamp 253402300800 (the
first second of year 10000 UTC) does not yield any YYYY-MM-DD value; the
datetime conversion raises ValueError, outside the per-game try, so the
loop aborts with no row for this or later games. -/
theorem c8_counterexample :
    mainLoop (fun _ => some ⟨"r", .str "m", "d", false⟩)
        [⟨1, "g", some 0, some 253402300800⟩] =
      ([], [], some PyErr.valueError) := by rfl

/-- Claim C8 as amended: a zero or absent rtime_last_played yields the
sentinel Never Played; a nonzero timestamp yields the UTC date of the
proleptic Gregorian conversion formatted YYYY-MM-DD whenever that date is
representable by datetime (year at most 9999), and raises ValueError
beyond.  The concrete conjuncts anchor the conversion numerically. -/
theorem c8_last_played :
    (∀ g : OwnedGame, g.rtime_last_played.getD 0 = 0 →
      lastPlayedOf g = .ok "Never Played") ∧
    (∀ (g : OwnedGame) (ts : Nat), g.rtime_last_played = some ts → ts ≠ 0 →
      lastPlayedOf g =
        (utcDateOfTimestamp ts).map (fun ymd => isoString ymd.1 ymd.2.1 ymd.2.2)) ∧
    (lastPlayedOf ⟨1, "g", none, some 1584748800⟩ = .ok "2020-03-21") ∧
    (lastPlayedOf ⟨1, "g", none, some 951782400⟩ = .ok "2000-02-29") ∧
    (lastPlayedOf ⟨1, "g", none, some 86400⟩ = .ok "1970-01-02") ∧
    (lastPlayedOf ⟨1, "g", none, some 253402300799⟩ = .ok "9999-12-31") ∧
    (lastPlayedOf ⟨1, "g", none, none⟩ = .ok "Never Played") ∧
    (lastPlayedOf ⟨1, "g", none, some 0⟩ = .ok "Never Played") := by
  refine ⟨?_, ?_, ?_, ?_, ?_, ?_, ?_, ?_⟩
  · intro g hg
    simp [lastPlayedOf, hg]
  · intro g ts hts hne
    simp only [lastPlayedOf, hts, Option.getD_some, if_neg hne]
    match h : utcDateOfTimestamp ts with
    | .ok (y, m, d) => simp [h, Except.map]
    | .error e => simp [h, Except.map]
  · rfl
  · rfl
  · rfl
  · rfl
  · rfl
  · rfl

/-- Witness for the amended C8 at concrete inputs: zero maps to the
sentinel and a nonzero representable timestamp maps through the UTC
conversion. -/
theorem c8_last_played_witness :
    lastPlayedOf ⟨7, "w", none, some 0⟩ = .ok "Never Played" ∧
    lastPlayedOf ⟨7, "w", none, some 1584748800⟩ =
      (utcDateOfTimestamp 1584748800).map (fun ymd => isoString ymd.1 ymd.2.1 ymd.2.2) :=
  ⟨c8_last_played.1 ⟨7, "w", none, some 0⟩ (by decide),
    c8_last_played.2.1 ⟨7, "w", none, some 1584748800⟩ 1584748800 rfl (by decide)⟩

/-! ## The DD Mon, YYYY format of the specification

The predicate below follows the words of the specification: a canonical
release-date string is a two-digit day, a space, a capitalized three-letter
month abbreviation, a comma, a space and a four-digit year, denoting a
calendar date datetime accepts.  It is compared against what format_date,
embedded from the source, actually accepts. -/

def digitChar (k : Nat) : Char := Char.ofNat (48 + k)

def render2 (n : Nat) : List Char := [digitChar (n / 10), digitChar (n % 10)]

def render4 (n : Nat) : List Char :=
  [digitChar (n / 1000), digitChar (n / 100 % 10), digitChar (n / 10 % 10), digitChar (n % 10)]

/-- the capitalized month abbreviations named by the spec format -/
def MONTH_ABBREVS : List String :=
  ["Jan", "Feb", "Mar", "Apr", "May", "Jun", "Jul", "Aug", "Sep", "Oct", "Nov", "Dec"]

def monthAbbrev (m : Nat) : String := MONTH_ABBREVS.getD (m - 1) ""

/-- the canonical rendering of day d, month m, year y in DD Mon, YYYY -/
def renderDDMonYYYY (d m y : Nat) : String :=
  String.mk (render2 d ++ ' ' :: ((monthAbbrev m).toList ++ ',' :: ' ' :: render4 y))

/-- Modelled from the spec wording: is s exactly a DD Mon, YYYY date string. -/
def isCanonicalDDMonYYYY (s : String) : Bool :=
  match s.toList with
  | [d1, d2, sp1, m1, m2, m3, com, sp2, y1, y2, y3, y4] =>
    isDigitChar d1 && isDigitChar d2 && sp1 == ' ' && com == ',' && sp2 == ' ' &&
    isDigitChar y1 && isDigitChar y2 && isDigitChar y3 && isDigitChar y4 &&
    (MONTH_ABBREVS.indexOf? (String.mk [m1, m2, m3])).isSome &&
    (let d := 10 * dval d1 + dval d2
     let y := ((dval y1 * 10 + dval y2) * 10 + dval y3) * 10 + dval y4
     let m := (MONTH_ABBREVS.indexOf? (String.mk [m1, m2, m3])).getD 0 + 1
     decide (1 ≤ d) && decide (d ≤ daysInMonth y m) && decide (1 ≤ y))
  | _ => false


/-! digit-character facts used by the roundtrip proof -/

theorem dval_digitChar (k : Nat) (h : k ≤ 9) : dval (digitChar k) = k := by
  interval_cases k <;> rfl

theorem isDigitChar_digitChar (k : Nat) (h : k ≤ 9) : isDigitChar (digitChar k) = true := by
  interval_cases k <;> rfl

theorem isSpaceChar_digitChar (k : Nat) (h : k ≤ 9) : isSpaceChar (digitChar k) = false := by
  interval_cases k <;> rfl

theorem parseDay_render2 (d : Nat) (h1 : 1 ≤ d) (h2 : d ≤ 31) (rest : List Char) :
    parseDay (render2 d ++ rest) = some (d, rest) := by
  interval_cases d <;> rfl

theorem parseMonth_abbrev (m : Nat) (h1 : 1 ≤ m) (h2 : m ≤ 12) (rest : List Char) :
    parseMonth ((monthAbbrev m).toList ++ rest) = some (m, rest) := by
  interval_cases m <;> rfl

theorem parseYear4_render4 (y : Nat) (h : y ≤ 9999) (rest : List Char) :
    parseYear4 (render4 y ++ rest) = some (y, rest) := by
  have h1 : y / 1000 ≤ 9 := by omega
  have h2 : y / 100 % 10 ≤ 9 := by omega
  have h3 : y / 10 % 10 ≤ 9 := by omega
  have h4 : y % 10 ≤ 9 := by omega
  simp only [render4, List.cons_append, List.nil_append, parseYear4,
    isDigitChar_digitChar _ h1, isDigitChar_digitChar _ h2, isDigitChar_digitChar _ h3,
    isDigitChar_digitChar _ h4, Bool.and_self, if_true,
    dval_digitChar _ h1, dval_digitChar _ h2, dval_digitChar _ h3, dval_digitChar _ h4]
  refine congrArg some (Prod.ext ?_ rfl)
  show ((y / 1000 * 10 + y / 100 % 10) * 10 + y / 10 % 10) * 10 + y % 10 = y
  omega

theorem wsPlus_cons_nonspace (c : Char) (cs : List Char) (h : isSpaceChar c = false) :
    wsPlus (' ' :: c :: cs) = some (c :: cs) := by
  simp [wsPlus, List.dropWhile, h]
  rfl

theorem parseComma_cons (rest : List Char) : parseComma (',' :: rest) = some rest := by
  simp [parseComma]

theorem monthAbbrev_head_nonspace (m : Nat) (h1 : 1 ≤ m) (h2 : m ≤ 12) :
    ∃ c cs, (monthAbbrev m).toList = c :: cs ∧ isSpaceChar c = false := by
  interval_cases m <;> exact ⟨_, _, rfl, rfl⟩

/-- The canonical rendering of a plausible date parses back to its
components. -/
theorem strptimeDbY_render (d m y : Nat) (hd1 : 1 ≤ d) (hd2 : d ≤ 31)
    (hm1 : 1 ≤ m) (hm2 : m ≤ 12) (hy : y ≤ 9999) :
    strptimeDbY (renderDDMonYYYY d m y) = some (d, m, y) := by
  obtain ⟨c, cs, hmc, hcns⟩ := monthAbbrev_head_nonspace m hm1 hm2
  have hy4 : isSpaceChar (digitChar (y / 1000)) = false := isSpaceChar_digitChar _ (by omega)
  have e1 : (renderDDMonYYYY d m y).toList =
      render2 d ++ (' ' :: ((monthAbbrev m).toList ++ (',' :: ' ' :: render4 y))) := rfl
  have e2 : wsPlus (' ' :: ((monthAbbrev m).toList ++ (',' :: ' ' :: render4 y))) =
      some ((monthAbbrev m).toList ++ (',' :: ' ' :: render4 y)) := by
    rw [hmc, List.cons_append, wsPlus_cons_nonspace c _ hcns]
  have e3 : wsPlus (' ' :: render4 y) = some (render4 y) := by
    have : render4 y = digitChar (y / 1000) ::
        [digitChar (y / 100 % 10), digitChar (y / 10 % 10), digitChar (y % 10)] := rfl
    rw [this, wsPlus_cons_nonspace _ _ hy4]
  have e4 : parseYear4 (render4 y) = some (y, []) := by
    have := parseYear4_render4 y hy []
    simpa using this
  simp only [strptimeDbY, e1, parseDay_render2 d hd1 hd2, Option.some_bind, e2,
    parseMonth_abbrev m hm1 hm2, parseComma_cons, e3, e4, List.isEmpty_nil, if_true]

theorem daysInMonth_le (y m : Nat) : daysInMonth y m ≤ 31 := by
  unfold daysInMonth
  split_ifs <;> norm_num

/-- Counterexample to C6: the string with a doubled space after the comma
is not in the DD Mon, YYYY format, yet format_date converts it instead of
returning the sentinel, because strptime maps each space of the format to
one-or-more whitespace (and also matches month names case-insensitively
and accepts one-digit days). -/
theorem c6_counterexample :
    isCanonicalDDMonYYYY "21 Mar,  2020" = false ∧
    format_date "21 Mar,  2020" = "2020-03-21" := ⟨rfl, rfl⟩

/-- Claim C6 as amended: every canonical DD Mon, YYYY string denoting a
real calendar date (year from 1000, so every platform prints four digits)
converts to the ISO YYYY-MM-DD string, in particular 21 Mar, 2020 to
2020-03-21; every string the %d %b, %Y pattern rejects converts to the
sentinel Unknown Release Date, as does a syntactically well-formed but
impossible date; however the parser is lenient, so some strings outside the
canonical format (flexible whitespace, case-insensitive months, one-digit
days) also convert instead of yielding the sentinel. -/
theorem c6_format_date :
    (∀ d m y : Nat, 1 ≤ d → 1 ≤ m → m ≤ 12 → 1000 ≤ y → y ≤ 9999 →
      d ≤ daysInMonth y m →
      format_date (renderDDMonYYYY d m y) = isoString y m d) ∧
    format_date "21 Mar, 2020" = "2020-03-21" ∧
    (∀ s : String, strptimeDbY s = none → format_date s = "Unknown Release Date") ∧
    format_date "30 Feb, 2020" = "Unknown Release Date" ∧
    format_date "21 Mar 2020" = "Unknown Release Date" := by
  refine ⟨?_, ?_, ?_, ?_, ?_⟩
  · intro d m y hd1 hm1 hm2 hy1 hy2 hdm
    have hd31 : d ≤ 31 := le_trans hdm (daysInMonth_le y m)
    simp only [format_date, strptimeDbY_render d m y hd1 hd31 hm1 hm2 (by omega)]
    rw [if_pos ⟨by omega, hdm⟩]
  · rfl
  · intro s hs
    simp only [format_date, hs]
  · rfl
  · rfl

/-- Witness for the amended C6 at concrete inputs: the canonical rendering
of 21 March 2020 converts through the general theorem, and an unparsable
string yields the sentinel. -/
theorem c6_format_date_witness :
    format_date (renderDDMonYYYY 21 3 2020) = isoString 2020 3 21 ∧
    format_date "not a date" = "Unknown Release Date" :=
  ⟨c6_format_date.1 21 3 2020 (by decide) (by decide) (by decide) (by decide) (by decide)
      (by decide),
    c6_format_date.2.2.1 "not a date" (by rfl)⟩
